import Mathlib

/-!
Shallow embedding of `src/img_bot.py`: a scheduled pipeline that reads a
prompt from a "Process" sheet, generates an image, delivers it to Telegram,
and appends an outcome row to a "Done" sheet.  Pure string classification
logic is translated function-by-function; the external world (sheets, the
generation API, the Telegram HTTP endpoint) appears as an environment of
per-attempt outcomes fed to the flow.
-/

set_option maxRecDepth 100000

namespace ImgBot

/-- Python `pat in hay` substring test on strings. -/
def containsSub (hay pat : String) : Bool :=
  decide (pat.data <:+: hay.data)

/-- Python `str.lower()`; the repository only lowers ASCII error text, for
which `Char.toLower` agrees with Python. -/
def pyLower (s : String) : String :=
  String.mk (s.data.map Char.toLower)

/-- Python `str.strip()`: drop leading and trailing whitespace. -/
def pyStrip (s : String) : String :=
  String.mk (((s.data.dropWhile Char.isWhitespace).reverse.dropWhile Char.isWhitespace).reverse)

/-- Result of a single execution attempt of a Prefect task body:
a returned value, a raised `ValueError` (which the code documents as a
critical, non-retried failure), or a raised `Exception` (retried). -/
inductive Attempt (α : Type) where
  | ok (v : α)
  | fatal (msg : String)
  | retryable (msg : String)
deriving DecidableEq, Repr

/-- Whether an attempt outcome is the retryable (plain `Exception`) kind. -/
def Attempt.isRetryable {α : Type} : Attempt α → Bool
  | Attempt.retryable _ => true
  | _ => false

/-- Retry wrapper for the `@task(retries=3, ...)` decorators: attempts run in
order; a returned value succeeds, a `ValueError` stops at once (the code's
stated "Critical error: Stop execution immediately" semantics), any other
exception consumes the next attempt, and when the budget is exhausted the
last exception propagates.  Also returns how many attempts were executed. -/
def retryList {α : Type} : List (Attempt α) → Except String α × Nat
  | [] => (Except.error ("Task failed"), 0)
  | Attempt.ok v :: _ => (Except.ok v, 1)
  | Attempt.fatal m :: _ => (Except.error m, 1)
  | Attempt.retryable m :: rest =>
    match rest with
    | [] => (Except.error m, 1)
    | b :: bs => ((retryList (b :: bs)).1, (retryList (b :: bs)).2 + 1)

/-- The first `n` attempt outcomes drawn from a per-attempt behaviour. -/
def attemptsOf {α : Type} (f : Nat → Attempt α) (n : Nat) : List (Attempt α) :=
  (List.range n).map f

/-- The two worksheet reads `get_prompt` performs on the Process sheet:
`col_values(1)` (the whole first column, header included) and
`row_values(2)` (the cells of row 2). -/
structure ProcessSheet where
  col1 : List String
  row2 : List String
deriving DecidableEq, Repr

/-- `get_prompt` (src/img_bot.py lines 43-73): if the first column has more
than one value, return row 2 column 1; if only the header exists, return
`None`.  Any exception inside the body (e.g. the `[0]` index failing) is
caught and re-raised as "Google Sheets Connection Failed". -/
def get_prompt (s : ProcessSheet) : Except String (Option String) :=
  if 1 < s.col1.length then
    match s.row2.head? with
    | some p => Except.ok (some p)
    | none => Except.error ("Google Sheets Connection Failed")
  else
    Except.ok none

/-- Outcome of one call to the generation API inside `generate_img`:
either a returned image object (`none` models a falsy/empty result, which
the code turns into a `ValueError` inside the `try`) or a raised exception
carrying the given text. -/
inductive GenApiOutcome where
  | ret (img : Option Nat)
  | exn (e : String)
deriving DecidableEq, Repr

/-- Value returned by `generate_img`: image bytes on success, or the quota
warning string returned (not raised) for billing errors. -/
inductive GenValue where
  | imgBytes (img : Nat)
  | warnText (msg : String)
deriving DecidableEq, Repr

def auth_error_msg : String := "🔒 AUTH ERROR: Hugging Face Token is invalid or missing."

def rate_limit_msg : String := "⏳ RATE LIMIT: Hugging Face API limit reached. Please wait."

def model_busy_msg : String := "🏗️ MODEL BUSY: The model is currently loading on Hugging Face servers."

def hf_network_msg : String := "❌ NETWORK ERROR: Failed to connect to Hugging Face API."

def quota_warning_msg : String := "💳 QUOTA EXCEEDED: Your Hugging Face credit balance is depleted. Purchase credits or upgrade to Pro."

def unknown_gen_msg : String := "Unknown Image Generation Error"

def empty_result_msg : String := "API returned an empty result (No Image)."

/-- The `except` block of `generate_img` (lines 119-173): lower the error
text and test substrings in order — auth (ValueError, CASE 1), rate limit
(CASE 2), model loading (CASE 3), network (CASE 4), billing (CASE 5, which
RETURNS the warning string), unknown (CASE 6). -/
def classify_gen_error (e : String) : Attempt GenValue :=
  let s := pyLower e
  if containsSub s ("401") || containsSub s ("unauthorized") || containsSub s ("token") then
    Attempt.fatal auth_error_msg
  else if containsSub s ("429") then
    Attempt.retryable rate_limit_msg
  else if containsSub s ("503") || containsSub s ("loading") then
    Attempt.retryable model_busy_msg
  else if containsSub s ("connection") || containsSub s ("max retries") then
    Attempt.retryable hf_network_msg
  else if containsSub s ("credit balance") || containsSub s ("depleted") then
    Attempt.ok (GenValue.warnText quota_warning_msg)
  else
    Attempt.retryable unknown_gen_msg

/-- One attempt of `generate_img` (lines 75-173): validate the prompt
(`ValueError` on empty/None), then call the API; a returned image object is
converted to bytes and returned, an empty result raises a `ValueError`
inside the `try` whose text is then classified, and any raised exception
text is classified by `classify_gen_error`. -/
def generate_img_attempt (prompt : Option String) (api : GenApiOutcome) : Attempt GenValue :=
  match prompt with
  | none => Attempt.fatal ("Prompt cannot be empty or None.")
  | some p =>
    if pyStrip p = "" then
      Attempt.fatal ("Prompt cannot be empty or None.")
    else
      match api with
      | GenApiOutcome.ret (some img) => Attempt.ok (GenValue.imgBytes img)
      | GenApiOutcome.ret none => classify_gen_error empty_result_msg
      | GenApiOutcome.exn e => classify_gen_error e

/-- Outcome of one HTTP POST to Telegram: a response with status code and
body text, or a raised exception with the given text. -/
inductive HttpOutcome where
  | http (code : Nat) (body : String)
  | exn (e : String)
deriving DecidableEq, Repr

/-- One attempt of `to_telegram` (lines 175-216): a 200 response succeeds;
any non-200 status raises inside the `try` and every exception in the body
is caught and re-raised as "Telegram Connection Failed". -/
def to_telegram_attempt (o : HttpOutcome) : Attempt Unit :=
  match o with
  | HttpOutcome.http 200 _ => Attempt.ok ()
  | _ => Attempt.retryable ("Telegram Connection Failed")

/-- The exception text raised by `send_information` when Telegram refuses
the request with a non-200 status (line 248). -/
def tg_refused_msg (code : Nat) (body : String) : String :=
  "Telegram API Refused: " ++ toString code ++ " - " ++ body

/-- The `except` block of `send_information` (lines 252-269): lower the
text and bucket it; the fallback embeds the original exception text. -/
def classify_tg_send_error (e : String) : String :=
  let s := pyLower e
  if containsSub s ("connection") || containsSub s ("dns") then
    "Network Error: Failed to connect to Telegram API."
  else if containsSub s ("timeout") then
    "Timeout Error: Telegram API did not respond."
  else if containsSub s ("ssl") then
    "SSL Error: Certificate verification failed."
  else
    "Transmission Failed: " ++ e

/-- One attempt of `send_information` (lines 218-269): a `ValueError` when
both Telegram credentials are missing (raised before the POST), success on
a 200 response, otherwise the refusal or transport exception text is
classified and re-raised. -/
def send_information_attempt (credsMissing : Bool) (o : HttpOutcome) : Attempt Unit :=
  if credsMissing then
    Attempt.fatal ("Error: Telegram credentials are missing.")
  else
    match o with
    | HttpOutcome.http 200 _ => Attempt.ok ()
    | HttpOutcome.http code body => Attempt.retryable (classify_tg_send_error (tg_refused_msg code body))
    | HttpOutcome.exn e => Attempt.retryable (classify_tg_send_error e)

def sheets_conn_failed_msg : String := "Google Sheets Connection Failed"

def process_started_msg : String := "Process Started"

def success_msg : String := "Image sent to Telegram successfully."

def network_clean_msg : String := "Network/Connection Error (Internet or DNS)"

def auth_clean_msg : String := "Authentication Error (Check API Keys)"

def rate_clean_msg : String := "Rate Limit / Quota Exceeded"

def timeout_clean_msg : String := "Operation Timed Out"

def json_clean_msg : String := "API Response Error (Invalid JSON)"

def internal_clean_msg : String := "Internal Error (Details hidden for security)"

/-- The `except` block of `main_flow` (lines 345-377): reduce any exception
text to one of six fixed sanitized messages before it is printed, stored in
the Done sheet, or re-raised. -/
def classify_flow_error (e : String) : String :=
  let s := pyLower e
  if containsSub s ("connection") || containsSub s ("max retries") then
    network_clean_msg
  else if containsSub s ("401") || containsSub s ("unauthorized") then
    auth_clean_msg
  else if containsSub s ("429") || containsSub s ("quota") then
    rate_clean_msg
  else if containsSub s ("timeout") then
    timeout_clean_msg
  else if containsSub s ("json") || containsSub s ("decode") then
    json_clean_msg
  else
    internal_clean_msg

/-- The external world a single run of `main_flow` interacts with:
whether the two `get_google_sheets` calls succeed, the Process sheet
contents, the per-attempt behaviour of the generation API and the two
Telegram endpoints, whether both Telegram credentials are missing, the
outcome of `delete_rows(2)` (`some e` = raised with text `e`), whether the
final `append_row` succeeds, and the timestamp taken at flow start. -/
structure Env where
  sheetsOk : Bool
  fetchOk : Bool
  sheet : ProcessSheet
  genApi : Nat → GenApiOutcome
  tgPhoto : Nat → HttpOutcome
  tgInfo : Nat → HttpOutcome
  tgCredsMissing : Bool
  deleteOutcome : Option String
  appendOk : Bool
  now : String

/-- The `get_prompt` task as observed by the flow: its own
`get_google_sheets` call may fail (raising the sanitized connection
message after retries), otherwise the sheet is read. -/
def stepPrompt (env : Env) : Except String (Option String) :=
  if env.fetchOk then get_prompt env.sheet else Except.error sheets_conn_failed_msg

/-- The retried `generate_img` task call for prompt `p` under `env`. -/
def genRun (env : Env) (p : String) : Except String GenValue × Nat :=
  retryList (attemptsOf (fun i => generate_img_attempt (some p) (env.genApi i)) 4)

/-- The retried `to_telegram` task call under `env`. -/
def photoRun (env : Env) : Except String Unit × Nat :=
  retryList (attemptsOf (fun i => to_telegram_attempt (env.tgPhoto i)) 4)

/-- The retried `send_information` task call under `env`. -/
def infoRun (env : Env) : Except String Unit × Nat :=
  retryList (attemptsOf (fun i => send_information_attempt env.tgCredsMissing (env.tgInfo i)) 4)

/-- State of `main_flow`'s local variables when the `try` block of lines
297-377 is left: the final `prompt_text`, `last_status` and
`status_information`, the exception re-raised by the handler (if any), the
captions POSTed to `sendPhoto`, the texts POSTed to `sendMessage`, and
whether row 2 of the Process sheet was deleted. -/
structure BodyOut where
  prompt : Option String
  status : String
  detail : String
  raised : Option String
  photoSends : List String
  infoSends : List String
  rowDeleted : Bool
deriving Repr

/-- The handler of lines 345-377: set `last_status` to FAILED, sanitize the
exception text, store it as the detail and re-raise it. -/
def handlerOut (prompt : Option String) (ph inf : List String) (e : String) : BodyOut :=
  { prompt := prompt
    status := "FAILED"
    detail := classify_flow_error e
    raised := some (classify_flow_error e)
    photoSends := ph
    infoSends := inf
    rowDeleted := false }

/-- The early `return` of lines 303-305 (no prompt found): the defaults
`last_status = "UNKNOWN"` and `status_information = "Process Started"` are
still in force; `prompt_text` holds what `get_prompt` returned. -/
def emptyBody (prompt : Option String) : BodyOut :=
  { prompt := prompt
    status := "UNKNOWN"
    detail := process_started_msg
    raised := none
    photoSends := []
    infoSends := []
    rowDeleted := false }

/-- The `try` block of `main_flow` (lines 297-377), translated branch by
branch.  `generate_img` never returns `None`, so the `result is None`
branch of lines 312-318 is unreachable and has no counterpart here.  In the
warning branch the notification is sent before the status variables are
updated, and in the success branch the photo is sent and the status set
before `delete_rows(2)` runs, so a delete failure overwrites the status
with FAILED via the handler. -/
def flow_body (env : Env) : BodyOut :=
  match stepPrompt env with
  | Except.error e => handlerOut (some ("No Prompt")) [] [] e
  | Except.ok none => emptyBody none
  | Except.ok (some p) =>
    if pyStrip p = "" then
      emptyBody (some p)
    else
      match genRun env p with
      | (Except.error e, _) => handlerOut (some p) [] [] e
      | (Except.ok (GenValue.warnText w), _) =>
        let sends := if env.tgCredsMissing then [] else List.replicate (infoRun env).2 w
        match (infoRun env).1 with
        | Except.ok _ =>
          { prompt := some p
            status := "FAILED"
            detail := w
            raised := none
            photoSends := []
            infoSends := sends
            rowDeleted := false }
        | Except.error e => handlerOut (some p) [] sends e
      | (Except.ok (GenValue.imgBytes _), _) =>
        let ph := List.replicate (photoRun env).2 p
        match (photoRun env).1 with
        | Except.error e => handlerOut (some p) ph [] e
        | Except.ok _ =>
          match env.deleteOutcome with
          | none =>
            { prompt := some p
              status := "SUCCESS"
              detail := success_msg
              raised := none
              photoSends := ph
              infoSends := []
              rowDeleted := true }
          | some e => handlerOut (some p) ph [] e

/-- The row `append_row` writes to the Done sheet (line 384). -/
structure LogRow where
  prompt : Option String
  status : String
  detail : String
  time : String
deriving DecidableEq, Repr

/-- Everything observable about one run of `main_flow` (lines 271-388):
the exception it re-raises (or normal return), the Telegram POSTs made,
whether the queue row was deleted, whether the final `append_row` was
attempted, and the row it appended (`none` if the append failed or was
never reached). -/
structure RunRecord where
  flowResult : Except String Unit
  photoSends : List String
  infoSends : List String
  rowDeleted : Bool
  logAttempted : Bool
  logRow : Option LogRow
deriving Repr

/-- `main_flow`: the initial `get_google_sheets` call of lines 287-295 is
outside the `try`/`finally`, so its failure re-raises without any log
append; otherwise the body runs and the `finally` block of lines 379-388
always attempts exactly one `append_row`, swallowing its failure. -/
def main_flow (env : Env) : RunRecord :=
  if env.sheetsOk then
    let b := flow_body env
    { flowResult := match b.raised with
        | some m => Except.error m
        | none => Except.ok ()
      photoSends := b.photoSends
      infoSends := b.infoSends
      rowDeleted := b.rowDeleted
      logAttempted := true
      logRow := if env.appendOk then
          some { prompt := b.prompt, status := b.status, detail := b.detail, time := env.now }
        else none }
  else
    { flowResult := Except.error sheets_conn_failed_msg
      photoSends := []
      infoSends := []
      rowDeleted := false
      logAttempted := false
      logRow := none }

/-- The fixed set of sanitized detail strings that can ever reach the Done
sheet: the startup default, the success message, the quota warning, and the
six sanitized messages of the flow-level handler. -/
def detail_set : List String :=
  [process_started_msg, success_msg, quota_warning_msg,
   network_clean_msg, auth_clean_msg, rate_clean_msg,
   timeout_clean_msg, json_clean_msg, internal_clean_msg]

/-- Whether an attempt outcome is the returned quota-warning value. -/
def isWarnValue : Attempt GenValue → Bool
  | Attempt.ok (GenValue.warnText _) => true
  | _ => false

lemma retryList_ok_mem {α : Type} (l : List (Attempt α)) :
    ∀ v n, retryList l = (Except.ok v, n) → Attempt.ok v ∈ l := by
  induction l with
  | nil => intro v n h; simp [retryList] at h
  | cons a rest ih =>
    intro v n h
    cases a with
    | ok w =>
      simp only [retryList, Prod.mk.injEq, Except.ok.injEq] at h
      simp [h.1]
    | fatal m => simp [retryList] at h
    | retryable m =>
      cases rest with
      | nil => simp [retryList] at h
      | cons b bs =>
        simp only [retryList] at h
        have h1 : (retryList (b :: bs)).1 = Except.ok v := by
          have := congrArg Prod.fst h
          simpa using this
        have hm := ih v (retryList (b :: bs)).2 (by rw [← h1])
        exact List.mem_cons_of_mem _ hm

lemma attemptsOf_mem {α : Type} {f : Nat → Attempt α} {n : Nat} {a : Attempt α}
    (h : a ∈ attemptsOf f n) : ∃ i, i < n ∧ f i = a := by
  simp only [attemptsOf, List.mem_map, List.mem_range] at h
  exact h

lemma classify_gen_error_warn (e w : String)
    (h : classify_gen_error e = Attempt.ok (GenValue.warnText w)) : w = quota_warning_msg := by
  simp only [classify_gen_error] at h
  split_ifs at h
  simp_all

lemma generate_img_attempt_warn (p : Option String) (api : GenApiOutcome) (w : String)
    (h : generate_img_attempt p api = Attempt.ok (GenValue.warnText w)) : w = quota_warning_msg := by
  cases p with
  | none => simp [generate_img_attempt] at h
  | some q =>
    by_cases hq : pyStrip q = ""
    · simp [generate_img_attempt, hq] at h
    · cases api with
      | ret img =>
        cases img with
        | none =>
          simp only [generate_img_attempt, if_neg hq] at h
          exact classify_gen_error_warn _ _ h
        | some i => simp [generate_img_attempt, hq] at h
      | exn e =>
        simp only [generate_img_attempt, if_neg hq] at h
        exact classify_gen_error_warn _ _ h

lemma genRun_warn (env : Env) (p w : String) (n : Nat)
    (h : genRun env p = (Except.ok (GenValue.warnText w), n)) : w = quota_warning_msg := by
  have hm := retryList_ok_mem _ _ _ h
  rcases attemptsOf_mem hm with ⟨i, _, hfi⟩
  exact generate_img_attempt_warn _ _ _ hfi

lemma classify_flow_error_mem (e : String) : classify_flow_error e ∈ detail_set := by
  simp only [classify_flow_error]
  split_ifs <;> simp [detail_set]

lemma get_prompt_header_only (s : ProcessSheet) (h : s.col1.length ≤ 1) :
    get_prompt s = Except.ok none := by
  have hn : ¬ 1 < s.col1.length := by omega
  simp [get_prompt, hn]

lemma get_prompt_data (s : ProcessSheet) (p : String) (hl : 1 < s.col1.length)
    (hh : s.row2.head? = some p) : get_prompt s = Except.ok (some p) := by
  simp [get_prompt, hl, hh]

lemma flow_body_prompt_err (env : Env) (e : String) (h : stepPrompt env = Except.error e) :
    flow_body env = handlerOut (some ("No Prompt")) [] [] e := by
  simp only [flow_body, h]

lemma flow_body_empty_prompt (env : Env) (h : stepPrompt env = Except.ok none) :
    flow_body env = emptyBody none := by
  simp only [flow_body, h]

lemma flow_body_blank_prompt (env : Env) (p : String) (h : stepPrompt env = Except.ok (some p))
    (hb : pyStrip p = "") : flow_body env = emptyBody (some p) := by
  simp only [flow_body, h, if_pos hb]

lemma flow_body_gen_err (env : Env) (p e : String) (n : Nat)
    (h : stepPrompt env = Except.ok (some p)) (hb : ¬ pyStrip p = "")
    (hg : genRun env p = (Except.error e, n)) :
    flow_body env = handlerOut (some p) [] [] e := by
  simp only [flow_body, h, if_neg hb, hg]

lemma flow_body_warn_sent (env : Env) (p w : String) (n : Nat)
    (h : stepPrompt env = Except.ok (some p)) (hb : ¬ pyStrip p = "")
    (hg : genRun env p = (Except.ok (GenValue.warnText w), n))
    (hi : (infoRun env).1 = Except.ok ()) :
    flow_body env =
      { prompt := some p
        status := "FAILED"
        detail := w
        raised := none
        photoSends := []
        infoSends := if env.tgCredsMissing then [] else List.replicate (infoRun env).2 w
        rowDeleted := false } := by
  simp only [flow_body, h, if_neg hb, hg, hi]

lemma flow_body_warn_senderr (env : Env) (p w e : String) (n : Nat)
    (h : stepPrompt env = Except.ok (some p)) (hb : ¬ pyStrip p = "")
    (hg : genRun env p = (Except.ok (GenValue.warnText w), n))
    (hi : (infoRun env).1 = Except.error e) :
    flow_body env =
      handlerOut (some p) []
        (if env.tgCredsMissing then [] else List.replicate (infoRun env).2 w) e := by
  simp only [flow_body, h, if_neg hb, hg, hi]

lemma flow_body_photo_err (env : Env) (p e : String) (b n : Nat)
    (h : stepPrompt env = Except.ok (some p)) (hb : ¬ pyStrip p = "")
    (hg : genRun env p = (Except.ok (GenValue.imgBytes b), n))
    (hp : (photoRun env).1 = Except.error e) :
    flow_body env = handlerOut (some p) (List.replicate (photoRun env).2 p) [] e := by
  simp only [flow_body, h, if_neg hb, hg, hp]

lemma flow_body_success (env : Env) (p : String) (b n : Nat)
    (h : stepPrompt env = Except.ok (some p)) (hb : ¬ pyStrip p = "")
    (hg : genRun env p = (Except.ok (GenValue.imgBytes b), n))
    (hp : (photoRun env).1 = Except.ok ())
    (hd : env.deleteOutcome = none) :
    flow_body env =
      { prompt := some p
        status := "SUCCESS"
        detail := success_msg
        raised := none
        photoSends := List.replicate (photoRun env).2 p
        infoSends := []
        rowDeleted := true } := by
  simp only [flow_body, h, if_neg hb, hg, hp, hd]

lemma flow_body_delete_err (env : Env) (p e : String) (b n : Nat)
    (h : stepPrompt env = Except.ok (some p)) (hb : ¬ pyStrip p = "")
    (hg : genRun env p = (Except.ok (GenValue.imgBytes b), n))
    (hp : (photoRun env).1 = Except.ok ())
    (hd : env.deleteOutcome = some e) :
    flow_body env = handlerOut (some p) (List.replicate (photoRun env).2 p) [] e := by
  simp only [flow_body, h, if_neg hb, hg, hp, hd]

lemma main_flow_eq (env : Env) (h : env.sheetsOk = true) :
    main_flow env =
      { flowResult := match (flow_body env).raised with
          | some m => Except.error m
          | none => Except.ok ()
        photoSends := (flow_body env).photoSends
        infoSends := (flow_body env).infoSends
        rowDeleted := (flow_body env).rowDeleted
        logAttempted := true
        logRow := if env.appendOk then
            some { prompt := (flow_body env).prompt, status := (flow_body env).status,
                   detail := (flow_body env).detail, time := env.now }
          else none } := by
  simp only [main_flow, h, if_true]

lemma flow_body_detail_mem (env : Env) : (flow_body env).detail ∈ detail_set := by
  cases hst : stepPrompt env with
  | error e =>
    rw [flow_body_prompt_err env e hst]
    simpa [handlerOut] using classify_flow_error_mem e
  | ok pOpt =>
    cases pOpt with
    | none =>
      rw [flow_body_empty_prompt env hst]
      simp [emptyBody, detail_set]
    | some p =>
      by_cases hb : pyStrip p = ""
      · rw [flow_body_blank_prompt env p hst hb]
        simp [emptyBody, detail_set]
      · rcases hg : genRun env p with ⟨gr, n⟩
        cases gr with
        | error e =>
          rw [flow_body_gen_err env p e n hst hb hg]
          simpa [handlerOut] using classify_flow_error_mem e
        | ok v =>
          cases v with
          | warnText w =>
            have hw := genRun_warn env p w n hg
            cases hi : (infoRun env).1 with
            | ok u =>
              cases u
              rw [flow_body_warn_sent env p w n hst hb hg hi]
              simp [hw, detail_set]
            | error e =>
              rw [flow_body_warn_senderr env p w e n hst hb hg hi]
              simpa [handlerOut] using classify_flow_error_mem e
          | imgBytes b =>
            cases hp : (photoRun env).1 with
            | error e =>
              rw [flow_body_photo_err env p e b n hst hb hg hp]
              simpa [handlerOut] using classify_flow_error_mem e
            | ok u =>
              cases u
              cases hd : env.deleteOutcome with
              | none =>
                rw [flow_body_success env p b n hst hb hg hp hd]
                simp [detail_set]
              | some e =>
                rw [flow_body_delete_err env p e b n hst hb hg hp hd]
                simpa [handlerOut] using classify_flow_error_mem e

/-- A run with queue entry "x" whose generation API raises a genuine network
error text on every attempt. -/
def envC1 : Env :=
  { sheetsOk := true
    fetchOk := true
    sheet := { col1 := [("Prompt"), ("x")], row2 := [("x")] }
    genApi := fun _ => GenApiOutcome.exn ("HTTPSConnectionPool: Max retries exceeded with ConnectionError")
    tgPhoto := fun _ => HttpOutcome.exn ("")
    tgInfo := fun _ => HttpOutcome.exn ("")
    tgCredsMissing := false
    deleteOutcome := none
    appendOk := true
    now := "t" }

/-- C1 counterexample: with one queued prompt "x" and the generation API
failing with a network error on all attempts, the run is FAILED and the
queue row is kept, but the logged detail is the generic internal-error
message, not "Network/Connection Error (Internet or DNS)": `generate_img`
re-raises the sanitized text "❌ NETWORK ERROR: Failed to connect to Hugging
Face API.", which contains neither "connection" nor "max retries", so the
flow-level classifier falls through to its final branch. -/
theorem claim_C1_counterexample :
    (main_flow envC1).flowResult = Except.error internal_clean_msg ∧
    (main_flow envC1).logRow = some { prompt := some ("x"), status := ("FAILED"),
                                      detail := internal_clean_msg, time := ("t") } ∧
    (main_flow envC1).rowDeleted = false ∧
    internal_clean_msg ≠ network_clean_msg := by
  refine ⟨rfl, rfl, rfl, by decide⟩

/-- C1 (amended): for a run whose queue holds one prompt and whose
generation step raises a network error on all retry attempts, the run is
marked FAILED, the log row appended to the Done sheet carries the detail
string "Internal Error (Details hidden for security)", and the queue row is
not removed. -/
theorem claim_C1_amended (env : Env) (p : String)
    (h1 : env.sheetsOk = true) (h2 : env.fetchOk = true)
    (h3 : get_prompt env.sheet = Except.ok (some p)) (h4 : ¬ pyStrip p = "")
    (h5 : ∀ i, i < 4 → generate_img_attempt (some p) (env.genApi i) = Attempt.retryable hf_network_msg)
    (h6 : env.appendOk = true) :
    (main_flow env).flowResult = Except.error internal_clean_msg ∧
    (main_flow env).logRow = some { prompt := some p, status := ("FAILED"),
                                    detail := internal_clean_msg, time := env.now } ∧
    (main_flow env).rowDeleted = false ∧
    (main_flow env).photoSends = [] := by
  have hst : stepPrompt env = Except.ok (some p) := by simp [stepPrompt, h2, h3]
  have hlist : attemptsOf (fun i => generate_img_attempt (some p) (env.genApi i)) 4 =
      [generate_img_attempt (some p) (env.genApi 0), generate_img_attempt (some p) (env.genApi 1),
       generate_img_attempt (some p) (env.genApi 2), generate_img_attempt (some p) (env.genApi 3)] := rfl
  have hgen : genRun env p = (Except.error hf_network_msg, 4) := by
    rw [genRun, hlist, h5 0 (by norm_num), h5 1 (by norm_num), h5 2 (by norm_num),
      h5 3 (by norm_num)]
    rfl
  have hfb := flow_body_gen_err env p hf_network_msg 4 hst h4 hgen
  have hcl : classify_flow_error hf_network_msg = internal_clean_msg := by decide
  rw [main_flow_eq env h1]
  simp [hfb, handlerOut, hcl, h6]

/-- C1 witness: the amended claim holds at the concrete environment. -/
theorem claim_C1_witness :
    (main_flow envC1).flowResult = Except.error internal_clean_msg ∧
    (main_flow envC1).logRow = some { prompt := some ("x"), status := ("FAILED"),
                                      detail := internal_clean_msg, time := ("t") } ∧
    (main_flow envC1).rowDeleted = false ∧
    (main_flow envC1).photoSends = [] :=
  claim_C1_amended envC1 ("x") rfl rfl rfl (by decide) (fun i _ => rfl) rfl

/-- C2: for every run and every exception arising in any step, the detail
string of the row appended to the Done sheet belongs to the fixed list of
sanitized messages `detail_set`; raw exception text never reaches the
persisted row. -/
theorem claim_C2 (env : Env) (r : LogRow) (h : (main_flow env).logRow = some r) :
    r.detail ∈ detail_set := by
  by_cases hs : env.sheetsOk = true
  · rw [main_flow_eq env hs] at h
    by_cases ha : env.appendOk = true
    · simp only [ha, if_true, Option.some.injEq] at h
      rw [← h]
      exact flow_body_detail_mem env
    · simp [ha] at h
  · have hs2 : env.sheetsOk = false := by simpa using hs
    simp [main_flow, hs2] at h

/-- An empty-queue run used to witness C2. -/
def envC2w : Env :=
  { sheetsOk := true
    fetchOk := true
    sheet := { col1 := [("Prompt")], row2 := [] }
    genApi := fun _ => GenApiOutcome.exn ("")
    tgPhoto := fun _ => HttpOutcome.exn ("")
    tgInfo := fun _ => HttpOutcome.exn ("")
    tgCredsMissing := false
    deleteOutcome := none
    appendOk := true
    now := "t" }

/-- C2 witness: the logged row of the concrete run has a sanitized detail. -/
theorem claim_C2_witness :
    ({ prompt := none, status := ("UNKNOWN"), detail := process_started_msg,
       time := ("t") } : LogRow).detail ∈ detail_set :=
  claim_C2 envC2w _ rfl

/-- A failed run whose final `append_row` also fails. -/
def envC3x : Env :=
  { sheetsOk := true
    fetchOk := true
    sheet := { col1 := [("Prompt"), ("x")], row2 := [("x")] }
    genApi := fun _ => GenApiOutcome.exn ("HTTPSConnectionPool: Max retries exceeded with ConnectionError")
    tgPhoto := fun _ => HttpOutcome.exn ("")
    tgInfo := fun _ => HttpOutcome.exn ("")
    tgCredsMissing := false
    deleteOutcome := none
    appendOk := false
    now := "t" }

/-- C3 counterexample: a failed run whose final `append_row` itself fails
appends no record at all — the append is attempted but swallowed, so zero
rows (not exactly one) reach the Done sheet. -/
theorem claim_C3_counterexample :
    (main_flow envC3x).flowResult = Except.error internal_clean_msg ∧
    (main_flow envC3x).logRow = none ∧
    (main_flow envC3x).logAttempted = true :=
  ⟨rfl, rfl, rfl⟩

/-- C3 (amended): every run that gets past the initial sheets connection
attempts exactly one append of an outcome record (prompt, status, detail,
timestamp) at the end of the run, whether it succeeded or failed; when the
append operation itself succeeds, exactly one such row is produced. -/
theorem claim_C3_amended (env : Env) (h1 : env.sheetsOk = true) :
    (main_flow env).logAttempted = true ∧
    (env.appendOk = true →
      (main_flow env).logRow =
        some { prompt := (flow_body env).prompt, status := (flow_body env).status,
               detail := (flow_body env).detail, time := env.now }) := by
  rw [main_flow_eq env h1]
  exact ⟨rfl, fun ha => by simp [ha]⟩

/-- An empty-queue run with a working log append, witnessing C3. -/
def envC3w : Env :=
  { sheetsOk := true
    fetchOk := true
    sheet := { col1 := [("Prompt")], row2 := [] }
    genApi := fun _ => GenApiOutcome.exn ("")
    tgPhoto := fun _ => HttpOutcome.exn ("")
    tgInfo := fun _ => HttpOutcome.exn ("")
    tgCredsMissing := false
    deleteOutcome := none
    appendOk := true
    now := "t" }

/-- C3 witness: the amended claim holds at the concrete environment. -/
theorem claim_C3_witness :
    (main_flow envC3w).logAttempted = true ∧
    (main_flow envC3w).logRow = some { prompt := none, status := ("UNKNOWN"),
                                       detail := process_started_msg, time := ("t") } :=
  ⟨(claim_C3_amended envC3w rfl).1, (claim_C3_amended envC3w rfl).2 rfl⟩

/-- C4 counterexample: an error text containing "credit balance" does not
always yield the warning value — the auth substrings are tested first, so
"401 credit balance" makes `generate_img` raise the auth `ValueError`
instead of returning the quota warning. -/
theorem claim_C4_counterexample :
    generate_img_attempt (some ("x")) (GenApiOutcome.exn ("401 credit balance")) =
      Attempt.fatal auth_error_msg ∧
    generate_img_attempt (some ("x")) (GenApiOutcome.exn ("401 credit balance")) ≠
      Attempt.ok (GenValue.warnText quota_warning_msg) := by
  exact ⟨rfl, by decide⟩

/-- C4 (amended): for every generation failure whose error text contains
"credit balance" and none of the substrings tested earlier by the
classifier ("401", "unauthorized", "token", "429", "503", "loading",
"connection", "max retries"), `generate_img` returns the quota-warning text
as a value rather than raising, and the flow then sends that text to the
user as a notification instead of silently failing. -/
theorem claim_C4_amended (env : Env) (p e b : String)
    (h1 : env.sheetsOk = true) (h2 : env.fetchOk = true)
    (h3 : get_prompt env.sheet = Except.ok (some p)) (h4 : ¬ pyStrip p = "")
    (h5 : env.genApi 0 = GenApiOutcome.exn e)
    (hcb : containsSub (pyLower e) ("credit balance") = true)
    (hn1 : containsSub (pyLower e) ("401") = false)
    (hn2 : containsSub (pyLower e) ("unauthorized") = false)
    (hn3 : containsSub (pyLower e) ("token") = false)
    (hn4 : containsSub (pyLower e) ("429") = false)
    (hn5 : containsSub (pyLower e) ("503") = false)
    (hn6 : containsSub (pyLower e) ("loading") = false)
    (hn7 : containsSub (pyLower e) ("connection") = false)
    (hn8 : containsSub (pyLower e) ("max retries") = false)
    (h6 : env.tgCredsMissing = false)
    (h7 : env.tgInfo 0 = HttpOutcome.http 200 b)
    (h8 : env.appendOk = true) :
    generate_img_attempt (some p) (GenApiOutcome.exn e) =
      Attempt.ok (GenValue.warnText quota_warning_msg) ∧
    (main_flow env).infoSends = [quota_warning_msg] ∧
    (main_flow env).flowResult = Except.ok () ∧
    (main_flow env).logRow = some { prompt := some p, status := ("FAILED"),
                                    detail := quota_warning_msg, time := env.now } := by
  have hcls : classify_gen_error e = Attempt.ok (GenValue.warnText quota_warning_msg) := by
    simp [classify_gen_error, hcb, hn1, hn2, hn3, hn4, hn5, hn6, hn7, hn8]
  have hatt : generate_img_attempt (some p) (GenApiOutcome.exn e) =
      Attempt.ok (GenValue.warnText quota_warning_msg) := by
    simp only [generate_img_attempt, if_neg h4]
    exact hcls
  have hst : stepPrompt env = Except.ok (some p) := by simp [stepPrompt, h2, h3]
  have hlist : attemptsOf (fun i => generate_img_attempt (some p) (env.genApi i)) 4 =
      [generate_img_attempt (some p) (env.genApi 0), generate_img_attempt (some p) (env.genApi 1),
       generate_img_attempt (some p) (env.genApi 2), generate_img_attempt (some p) (env.genApi 3)] := rfl
  have hgen : genRun env p = (Except.ok (GenValue.warnText quota_warning_msg), 1) := by
    rw [genRun, hlist, h5, hatt]
    rfl
  have hilist : attemptsOf (fun i => send_information_attempt env.tgCredsMissing (env.tgInfo i)) 4 =
      [send_information_attempt env.tgCredsMissing (env.tgInfo 0),
       send_information_attempt env.tgCredsMissing (env.tgInfo 1),
       send_information_attempt env.tgCredsMissing (env.tgInfo 2),
       send_information_attempt env.tgCredsMissing (env.tgInfo 3)] := rfl
  have hsend : send_information_attempt env.tgCredsMissing (env.tgInfo 0) = Attempt.ok () := by
    rw [h6, h7]
    rfl
  have hinfo : infoRun env = (Except.ok (), 1) := by
    rw [infoRun, hilist, hsend]
    rfl
  have hfb := flow_body_warn_sent env p quota_warning_msg 1 hst h4 hgen (by rw [hinfo])
  rw [main_flow_eq env h1]
  refine ⟨hatt, ?_, ?_, ?_⟩ <;> simp [hfb, hinfo, h6, h8]

/-- A run whose generation API reports an exhausted credit balance and whose
Telegram notification succeeds. -/
def envC4w : Env :=
  { sheetsOk := true
    fetchOk := true
    sheet := { col1 := [("Prompt"), ("x")], row2 := [("x")] }
    genApi := fun _ => GenApiOutcome.exn ("Your credit balance is too low")
    tgPhoto := fun _ => HttpOutcome.exn ("")
    tgInfo := fun _ => HttpOutcome.http 200 ("ok")
    tgCredsMissing := false
    deleteOutcome := none
    appendOk := true
    now := "t" }

/-- C4 witness: the amended claim holds at the concrete environment. -/
theorem claim_C4_witness :
    generate_img_attempt (some ("x")) (GenApiOutcome.exn ("Your credit balance is too low")) =
      Attempt.ok (GenValue.warnText quota_warning_msg) ∧
    (main_flow envC4w).infoSends = [quota_warning_msg] ∧
    (main_flow envC4w).flowResult = Except.ok () ∧
    (main_flow envC4w).logRow = some { prompt := some ("x"), status := ("FAILED"),
                                       detail := quota_warning_msg, time := ("t") } :=
  claim_C4_amended envC4w ("x") ("Your credit balance is too low") ("ok") rfl rfl rfl
    (by decide) rfl (by decide) (by decide) (by decide) (by decide) (by decide) (by decide)
    (by decide) (by decide) (by decide) rfl rfl rfl

/-- C5: every generation failure whose (lowered) error text contains "401"
is classified as the fatal auth `ValueError` — never as one of the
retryable `Exception` classifications. -/
theorem claim_C5 (e : String) (h : containsSub (pyLower e) ("401") = true) :
    classify_gen_error e = Attempt.fatal auth_error_msg ∧
    (classify_gen_error e).isRetryable = false := by
  have hc : classify_gen_error e = Attempt.fatal auth_error_msg := by
    simp [classify_gen_error, h]
  exact ⟨hc, by rw [hc]; rfl⟩

/-- C5 witness: the claim holds at a concrete 401 error text. -/
theorem claim_C5_witness :
    containsSub (pyLower ("HTTP Error 401: bad credentials")) ("401") = true ∧
    (classify_gen_error ("HTTP Error 401: bad credentials") = Attempt.fatal auth_error_msg ∧
     (classify_gen_error ("HTTP Error 401: bad credentials")).isRetryable = false) :=
  ⟨by decide, claim_C5 ("HTTP Error 401: bad credentials") (by decide)⟩

/-- C6: for a run whose queue holds the single prompt "a cat" and whose
generation and first delivery attempt succeed, the image is posted exactly
once with caption "a cat", queue row 2 is deleted, and the log row
(a cat, SUCCESS, detail, timestamp) is appended. -/
theorem claim_C6 (env : Env) (img : Nat) (b : String)
    (h1 : env.sheetsOk = true) (h2 : env.fetchOk = true)
    (h3 : get_prompt env.sheet = Except.ok (some ("a cat")))
    (h4 : env.genApi 0 = GenApiOutcome.ret (some img))
    (h5 : env.tgPhoto 0 = HttpOutcome.http 200 b)
    (h6 : env.deleteOutcome = none) (h7 : env.appendOk = true) :
    (main_flow env).photoSends = [("a cat")] ∧
    (main_flow env).rowDeleted = true ∧
    (main_flow env).logRow = some { prompt := some ("a cat"), status := ("SUCCESS"),
                                    detail := success_msg, time := env.now } ∧
    (main_flow env).flowResult = Except.ok () := by
  have hb : ¬ pyStrip ("a cat") = "" := by decide
  have hst : stepPrompt env = Except.ok (some ("a cat")) := by simp [stepPrompt, h2, h3]
  have hlist : attemptsOf (fun i => generate_img_attempt (some ("a cat")) (env.genApi i)) 4 =
      [generate_img_attempt (some ("a cat")) (env.genApi 0),
       generate_img_attempt (some ("a cat")) (env.genApi 1),
       generate_img_attempt (some ("a cat")) (env.genApi 2),
       generate_img_attempt (some ("a cat")) (env.genApi 3)] := rfl
  have hgen : genRun env ("a cat") = (Except.ok (GenValue.imgBytes img), 1) := by
    rw [genRun, hlist, h4]
    rfl
  have hplist : attemptsOf (fun i => to_telegram_attempt (env.tgPhoto i)) 4 =
      [to_telegram_attempt (env.tgPhoto 0), to_telegram_attempt (env.tgPhoto 1),
       to_telegram_attempt (env.tgPhoto 2), to_telegram_attempt (env.tgPhoto 3)] := rfl
  have hphoto : photoRun env = (Except.ok (), 1) := by
    rw [photoRun, hplist, h5]
    rfl
  have hfb := flow_body_success env ("a cat") img 1 hst hb hgen (by rw [hphoto]) h6
  rw [main_flow_eq env h1]
  refine ⟨?_, ?_, ?_, ?_⟩ <;> simp [hfb, hphoto, h7]

/-- A fully successful run on the queue entry "a cat". -/
def envC6w : Env :=
  { sheetsOk := true
    fetchOk := true
    sheet := { col1 := [("Prompt"), ("a cat")], row2 := [("a cat")] }
    genApi := fun _ => GenApiOutcome.ret (some 7)
    tgPhoto := fun _ => HttpOutcome.http 200 ("ok")
    tgInfo := fun _ => HttpOutcome.exn ("")
    tgCredsMissing := false
    deleteOutcome := none
    appendOk := true
    now := "t" }

/-- C6 witness: the claim holds at the concrete environment. -/
theorem claim_C6_witness :
    (main_flow envC6w).photoSends = [("a cat")] ∧
    (main_flow envC6w).rowDeleted = true ∧
    (main_flow envC6w).logRow = some { prompt := some ("a cat"), status := ("SUCCESS"),
                                       detail := success_msg, time := ("t") } ∧
    (main_flow envC6w).flowResult = Except.ok () :=
  claim_C6 envC6w 7 ("ok") rfl rfl rfl rfl rfl rfl rfl

/-- C7: for every sheet whose first column holds more than one value and
whose row 2 has a first cell, the Queue Reader returns that cell; for a
header-only first column (length at most 1) it returns the empty signal. -/
theorem claim_C7 (s : ProcessSheet) :
    (∀ p, 1 < s.col1.length → s.row2.head? = some p → get_prompt s = Except.ok (some p)) ∧
    (s.col1.length ≤ 1 → get_prompt s = Except.ok none) :=
  ⟨fun p hl hh => get_prompt_data s p hl hh, fun hl => get_prompt_header_only s hl⟩

/-- C7 witness: both branches of the claim at concrete sheets. -/
theorem claim_C7_witness :
    get_prompt { col1 := [("Prompt"), ("a cat")], row2 := [("a cat")] } =
      Except.ok (some ("a cat")) ∧
    get_prompt { col1 := [("Prompt")], row2 := [] } = Except.ok none :=
  ⟨(claim_C7 { col1 := [("Prompt"), ("a cat")], row2 := [("a cat")] }).1 ("a cat")
     (by decide) rfl,
   (claim_C7 { col1 := [("Prompt")], row2 := [] }).2 (by decide)⟩

/-- C8: a failure of the final `append_row` is swallowed: every observable
part of the run other than the appended row — the re-raised exception or
normal return, whether logging was attempted, the Telegram posts, the queue
deletion — is identical whether or not the append succeeds. -/
theorem claim_C8 (env : Env) :
    (main_flow { env with appendOk := false }).flowResult = (main_flow env).flowResult ∧
    (main_flow { env with appendOk := false }).logAttempted = (main_flow env).logAttempted ∧
    (main_flow { env with appendOk := false }).photoSends = (main_flow env).photoSends ∧
    (main_flow { env with appendOk := false }).rowDeleted = (main_flow env).rowDeleted := by
  cases env with
  | mk s f sh g tp ti cm dl ap nw =>
    cases s
    · exact ⟨rfl, rfl, rfl, rfl⟩
    · exact ⟨rfl, rfl, rfl, rfl⟩

/-- C9: the classifier tests the auth substrings before the billing ones,
so an error text containing both "401" (or "unauthorized"/"token") and
"credit balance" makes `generate_img` raise the fatal auth error and never
return the quota-warning value. -/
theorem claim_C9 (e p : String)
    (ha : (containsSub (pyLower e) ("401") || containsSub (pyLower e) ("unauthorized") ||
           containsSub (pyLower e) ("token")) = true)
    (_hcb : containsSub (pyLower e) ("credit balance") = true)
    (hp : ¬ pyStrip p = "") :
    classify_gen_error e = Attempt.fatal auth_error_msg ∧
    generate_img_attempt (some p) (GenApiOutcome.exn e) = Attempt.fatal auth_error_msg ∧
    isWarnValue (generate_img_attempt (some p) (GenApiOutcome.exn e)) = false := by
  have hc : classify_gen_error e = Attempt.fatal auth_error_msg := by
    simp [classify_gen_error, ha]
  have hg : generate_img_attempt (some p) (GenApiOutcome.exn e) = Attempt.fatal auth_error_msg := by
    simp only [generate_img_attempt, if_neg hp]
    exact hc
  exact ⟨hc, hg, by rw [hg]; rfl⟩

/-- C9 witness: the claim holds at a concrete text containing both an auth
substring and "credit balance". -/
theorem claim_C9_witness :
    (containsSub (pyLower ("401 credit balance")) ("401") ||
     containsSub (pyLower ("401 credit balance")) ("unauthorized") ||
     containsSub (pyLower ("401 credit balance")) ("token")) = true ∧
    containsSub (pyLower ("401 credit balance")) ("credit balance") = true ∧
    (classify_gen_error ("401 credit balance") = Attempt.fatal auth_error_msg ∧
     generate_img_attempt (some ("y")) (GenApiOutcome.exn ("401 credit balance")) =
       Attempt.fatal auth_error_msg ∧
     isWarnValue (generate_img_attempt (some ("y")) (GenApiOutcome.exn ("401 credit balance"))) =
       false) :=
  ⟨by decide, by decide, claim_C9 ("401 credit balance") ("y") (by decide) (by decide) (by decide)⟩

/-- C10: on an empty-queue run (header-only first column) with a working
log append, the flow still appends the row (None, UNKNOWN, Process Started,
timestamp) and returns successfully, posting nothing and deleting nothing. -/
theorem claim_C10 (env : Env)
    (h1 : env.sheetsOk = true) (h2 : env.fetchOk = true)
    (h3 : env.sheet.col1.length ≤ 1) (h4 : env.appendOk = true) :
    (main_flow env).logRow = some { prompt := none, status := ("UNKNOWN"),
                                    detail := process_started_msg, time := env.now } ∧
    (main_flow env).flowResult = Except.ok () ∧
    (main_flow env).photoSends = [] ∧
    (main_flow env).rowDeleted = false := by
  have hst : stepPrompt env = Except.ok none := by
    simp [stepPrompt, h2, get_prompt_header_only env.sheet h3]
  have hfb := flow_body_empty_prompt env hst
  rw [main_flow_eq env h1]
  refine ⟨?_, ?_, ?_, ?_⟩ <;> simp [hfb, emptyBody, h4]

/-- An empty-queue run with a working log append, witnessing C10. -/
def envC10w : Env :=
  { sheetsOk := true
    fetchOk := true
    sheet := { col1 := [("Prompt")], row2 := [] }
    genApi := fun _ => GenApiOutcome.exn ("")
    tgPhoto := fun _ => HttpOutcome.exn ("")
    tgInfo := fun _ => HttpOutcome.exn ("")
    tgCredsMissing := false
    deleteOutcome := none
    appendOk := true
    now := "t" }

/-- C10 witness: the claim holds at the concrete environment. -/
theorem claim_C10_witness :
    (main_flow envC10w).logRow = some { prompt := none, status := ("UNKNOWN"),
                                        detail := process_started_msg, time := ("t") } ∧
    (main_flow envC10w).flowResult = Except.ok () ∧
    (main_flow envC10w).photoSends = [] ∧
    (main_flow envC10w).rowDeleted = false :=
  claim_C10 envC10w rfl rfl (by decide) rfl

end ImgBot
